import Mathlib

/-!
Verification development for the APAC Digital Natives prep-sheet generator
(`app.py`).  The Python program is shallowly embedded: strings are Lean
`String`s (reasoned about through their `List Char` data), pandas cells are a
small `Cell` type, the two external model services are parameters of the stage
functions, and fallible Python code (code that can raise) is embedded with
`Except`.  Python library primitives (`str.lower`, `str.strip`, `str.replace`,
`str.startswith`, `float` parsing, `urllib.parse.urlparse`, the regular
expression engine behind `pandas.Series.str.contains`) are modelled explicitly
below on the fragment of inputs the program and the theorems exercise; each
model carries a doc comment stating its scope.
-/

namespace AppModel

/-! ## Python string primitives -/

/-- Model of lowercasing one character as Python `str.lower` does on ASCII:
`A`..`Z` map to `a`..`z`, every other character is unchanged.  (Python also
lowercases non-ASCII letters; the dataset names and inputs used in the
theorems below are ASCII, so the ASCII fragment is modelled.) -/
def lowerChar (c : Char) : Char :=
  if 'A' ≤ c ∧ c ≤ 'Z' then Char.ofNat (c.toNat + 32) else c

/-- Model of Python `str.lower` (ASCII fragment, see `lowerChar`). -/
def pyLower (s : String) : String := ⟨s.data.map lowerChar⟩

/-- Python whitespace characters recognised by `str.strip` with no argument. -/
def pyIsSpace (c : Char) : Bool :=
  c == ' ' || c == '\t' || c == '\n' || c == '\x0b' || c == '\x0c' || c == '\r'

/-- Model of Python `str.strip`: drop whitespace from both ends. -/
def pyStrip (s : String) : String :=
  ⟨((s.data.dropWhile pyIsSpace).reverse.dropWhile pyIsSpace).reverse⟩

/-- Boolean test that `pre` is a prefix of `l` (Python `str.startswith`,
also used to model one step of `str.replace` and of `re` matching). -/
def startsWithL : List Char → List Char → Bool
  | [], _ => true
  | _ :: _, [] => false
  | p :: ps, c :: cs => p == c && startsWithL ps cs

/-- Model of Python `str.startswith`. -/
def pyStartsWith (s pre : String) : Bool := startsWithL pre.data s.data

/-- Boolean test that `needle` occurs contiguously somewhere in the second
argument (plain substring containment, scanning left to right). -/
def containsL (needle : List Char) : List Char → Bool
  | [] => startsWithL needle []
  | c :: rest => startsWithL needle (c :: rest) || containsL needle rest

/-- One fuel-indexed pass of Python `str.replace`: scan left to right, and at
each position where `pat` matches, emit `repl` and resume after the matched
segment.  The fuel is instantiated with the length of the scanned list (enough
for a nonempty `pat`; the program only replaces the nonempty patterns `","`,
`" "` and `"www."`). -/
def replaceFuel (pat repl : List Char) : Nat → List Char → List Char
  | 0, l => l
  | Nat.succ f, l =>
    match l with
    | [] => []
    | c :: cs =>
      if startsWithL pat (c :: cs) then repl ++ replaceFuel pat repl f ((c :: cs).drop pat.length)
      else c :: replaceFuel pat repl f cs

/-- Model of Python `str.replace` (all occurrences, left to right,
non-overlapping). -/
def strReplace (s pat repl : String) : String :=
  ⟨replaceFuel pat.data repl.data s.data.length s.data⟩

/-- Substring containment as a proposition: `m` occurs contiguously in `t`.
This is the sense in which a prompt "contains" a piece of text verbatim. -/
def SContains (t m : String) : Prop :=
  ∃ pre post : List Char, pre ++ m.data ++ post = t.data

/-! ## Decimal rendering (Python `format(n, ",")`) -/

/-- Decimal digits of a natural number, most significant first; fuel-indexed
so that the definition is structural (the fuel `n + 1` always suffices). -/
def digitsAux (fuel n : Nat) : List Char :=
  match fuel with
  | 0 => []
  | Nat.succ f => if n < 10 then [Nat.digitChar n] else digitsAux f (n / 10) ++ [Nat.digitChar (n % 10)]

/-- Decimal digits of a natural number, most significant first. -/
def digitsOf (n : Nat) : List Char := digitsAux (n + 1) n

/-- Insert a comma before each further group of three characters, walking a
reversed digit list; `k` counts the characters emitted in the current group. -/
def commasRev : List Char → Nat → List Char
  | [], _ => []
  | c :: r, k => if k == 3 then ',' :: c :: commasRev r 1 else c :: commasRev r (k + 1)

/-- Model of the Python format specifier `{:,}` on an `int`: decimal digits
with a comma every three, a leading minus sign for negative values. -/
def pyCommaFormat (i : Int) : String :=
  let mag : String := ⟨(commasRev (digitsOf i.natAbs).reverse 0).reverse⟩
  if i < 0 then "-" ++ mag else mag

/-! ## Python `float`-literal parsing (fragment) -/

/-- Numeric value of a list of decimal digit characters. -/
def natOfDigits (l : List Char) : Nat :=
  l.foldl (fun a c => a * 10 + (c.toNat - 48)) 0

/-- Model of `int(float(s))` for the fragment of Python float literals made of
an optional sign, integer digits and an optional fractional part (no exponent,
no underscores, no infinity forms, which are handled separately).  Since
`int` truncates toward zero, the fractional digits are discarded and the
result is the signed value of the integer digits.  Strings outside the
fragment yield `none` (a `ValueError` in Python, caught by the caller). -/
def pyParseNumber (l : List Char) : Option Int :=
  let signRest : Int × List Char :=
    match l with
    | '+' :: r => (1, r)
    | '-' :: r => (-1, r)
    | r => (1, r)
  let ip := signRest.2.takeWhile Char.isDigit
  let rest2 := signRest.2.dropWhile Char.isDigit
  match rest2 with
  | [] => if ip.isEmpty then none else some (signRest.1 * natOfDigits ip)
  | '.' :: rest3 =>
    let fp := rest3.takeWhile Char.isDigit
    let rest4 := rest3.dropWhile Char.isDigit
    if rest4.isEmpty && (!ip.isEmpty || !fp.isEmpty) then some (signRest.1 * natOfDigits ip)
    else none
  | _ => none

/-- Python `float` also accepts infinity spellings; `int(float(s))` then
raises `OverflowError`, which `safe_convert_to_int` does NOT catch (its
`except` clause lists only `ValueError` and `TypeError`). -/
def isInfStr (l : List Char) : Bool :=
  let low : List Char := l.map lowerChar
  low == "inf".data || low == "+inf".data || low == "-inf".data ||
  low == "infinity".data || low == "+infinity".data || low == "-infinity".data

/-! ## The dataset model -/

/-- One pandas cell as the program can observe it: missing (`None`), a float
`NaN` (both reported by `pd.isna`), a string, or an integer.  Finite non-
integer float cells and other Python objects are outside the model; every
dataset used in the theorems below is built from these constructors. -/
inductive Cell where
  | nullV : Cell
  | nanV : Cell
  | strV (s : String) : Cell
  | intV (n : Int) : Cell
deriving DecidableEq, Repr

/-- One row of `data.xlsx` as consumed by `search_company_data`.  The
organization name is modelled as a string (a `NaN` name never equals a
lowercased input and is excluded from the partial match by `na=False`, so a
missing name behaves like a name matching nothing; the rows in all theorems
carry string names).  The website is `none` when the cell is missing
(`pd.notna` false). -/
structure DataRow where
  orgName : String
  website : Option String
  monthlyVisits : Cell
  appDownloads : Cell
deriving DecidableEq, Repr

/-- Embedding of `safe_convert_to_int` (app.py lines 31-49).  `Except` models
raising: the only uncaught path is `int(float(s))` on an infinity spelling,
where Python raises `OverflowError` (not in the caught `(ValueError,
TypeError)`).  All other failures fall back to the default. -/
def safe_convert_to_int (value : Cell) (dflt : Int) : Except String Int :=
  match value with
  | Cell.nullV => Except.ok dflt
  | Cell.nanV => Except.ok dflt
  | Cell.intV n => Except.ok n
  | Cell.strV s =>
    let t := pyStrip (strReplace s "," "")
    if t == "" || pyLower t == "nan" then Except.ok dflt
    else if isInfStr t.data then Except.error "OverflowError: cannot convert float infinity to integer"
    else match pyParseNumber t.data with
      | some n => Except.ok n
      | none => Except.ok dflt

/-! ## The regular expression engine behind `pandas.Series.str.contains`

`df[col].str.contains(pat)` compiles `pat` with Python `re` and applies
`re.search` to each entry.  The engine is modelled on the fragment of patterns
made of plain characters, the wildcard `.` and balanced parenthesis groups
without quantifiers (a group then only flattens into its body).  An
unbalanced parenthesis is a compile error exactly as in Python (`re.error`).
Patterns using other metacharacters are outside the fragment and answer a
distinguished `error`; no theorem below exercises them. -/

/-- One compiled pattern atom: `anyA` is the wildcard `.` (it matches every
character except a newline when `re.DOTALL` is off), `litA c` matches exactly
`c`. -/
inductive RAtom where
  | anyA : RAtom
  | litA (c : Char) : RAtom
deriving DecidableEq, Repr

/-- Regex metacharacters whose constructs are not modelled; a pattern
containing one is rejected by `compileAux` as outside the fragment. -/
def otherMeta : List Char := ['*', '+', '?', '[', ']', '\\', '|', '^', '$', '\x7b', '\x7d']

/-- Compile a pattern (fragment, see the section comment), tracking the open
parenthesis depth.  An unbalanced parenthesis reproduces the `re.error`
messages Python raises. -/
def compileAux : List Char → Nat → Except String (List RAtom)
  | [], 0 => Except.ok []
  | [], _ + 1 => Except.error "missing ), unterminated subpattern"
  | c :: rest, d =>
    if c == '(' then compileAux rest (d + 1)
    else if c == ')' then
      match d with
      | 0 => Except.error "unbalanced parenthesis"
      | d' + 1 => compileAux rest d'
    else if c == '.' then (compileAux rest d).map (fun p => RAtom.anyA :: p)
    else if otherMeta.contains c then Except.error "unmodeled regex construct"
    else (compileAux rest d).map (fun p => RAtom.litA c :: p)

/-- Compile a whole pattern string. -/
def compilePattern (pat : List Char) : Except String (List RAtom) := compileAux pat 0

/-- Match a compiled pattern against the beginning of a text. -/
def matchHere : List RAtom → List Char → Bool
  | [], _ => true
  | _ :: _, [] => false
  | RAtom.anyA :: ps, c :: cs => (c != '\n') && matchHere ps cs
  | RAtom.litA x :: ps, c :: cs => (x == c) && matchHere ps cs

/-- Model of `re.search`: the pattern matches starting at some position. -/
def regexSearch (p : List RAtom) : List Char → Bool
  | [] => matchHere p []
  | c :: cs => matchHere p (c :: cs) || regexSearch p cs

/-! ## The company record and `search_company_data` -/

/-- The dictionary returned by `search_company_data` (the spec model calls it
CompanyRecord).  `match_type` carries the literal strings of the source. -/
structure CompanyData where
  company_name : String
  website : String
  monthly_visits : Int
  app_downloads : Int
  match_type : String
deriving DecidableEq, Repr

/-- The synthesized website guess of `search_company_data`:
`f"https://www.\x7bcompany_name.lower().replace(' ', '')\x7d.com"`. -/
def synthWebsite (company_name : String) : String :=
  "https://www." ++ strReplace (pyLower company_name) " " "" ++ ".com"

/-- The website field of a returned record: the cell when present
(`pd.notna`), otherwise the synthesized guess built from the user input. -/
def websiteField (w : Option String) (company_name : String) : String :=
  match w with
  | some s => s
  | none => synthWebsite company_name

/-- Embedding of `search_company_data` (app.py lines 51-98).  pandas
`df[mask]` followed by `.empty` / `.iloc[0]` is the filtered list followed by
`.head?`.  `Except` models an uncaught raise: compiling the user input as a
regular expression can raise `re.error` (the partial-match tier is only
reached, and the pattern only compiled, when the exact tier found nothing),
and the numeric conversion can raise `OverflowError` on infinity spellings. -/
def search_company_data (df : List DataRow) (company_name : String) : Except String CompanyData :=
  let exactRows := df.filter (fun row => pyLower row.orgName == pyLower company_name)
  match exactRows.head? with
  | some row =>
    match safe_convert_to_int row.monthlyVisits 0 with
    | Except.error e => Except.error e
    | Except.ok visits =>
      match safe_convert_to_int row.appDownloads 0 with
      | Except.error e => Except.error e
      | Except.ok downloads =>
        Except.ok ⟨row.orgName, websiteField row.website company_name, visits, downloads, "exact"⟩
  | none =>
    match compilePattern (pyLower company_name).data with
    | Except.error e => Except.error e
    | Except.ok pat =>
      let partRows := df.filter (fun row => regexSearch pat (pyLower row.orgName).data)
      match partRows.head? with
      | some row =>
        match safe_convert_to_int row.monthlyVisits 0 with
        | Except.error e => Except.error e
        | Except.ok visits =>
          match safe_convert_to_int row.appDownloads 0 with
          | Except.error e => Except.error e
          | Except.ok downloads =>
            Except.ok ⟨row.orgName, websiteField row.website company_name, visits, downloads, "partial"⟩
      | none => Except.ok ⟨company_name, synthWebsite company_name, 0, 0, "none"⟩

/-! ## `extract_domain` and its URL parsing -/

/-- A character allowed in a URL scheme after the first (alphabetic) one. -/
def schemeChar (c : Char) : Bool :=
  c.isAlpha || c.isDigit || c == '+' || c == '-' || c == '.'

/-- Model of the scheme-splitting step of `urllib.parse.urlparse`: when the
string has a first `:` preceded by a nonempty valid scheme (leading letter,
then scheme characters), the scheme and the colon are dropped. -/
def splitScheme (l : List Char) : List Char :=
  let pre := l.takeWhile (fun c => c != ':')
  let rest := l.dropWhile (fun c => c != ':')
  match rest with
  | ':' :: after =>
    match pre with
    | p :: _ => if p.isAlpha && pre.all schemeChar then after else l
    | [] => l
  | _ => l

/-- Model of `urlparse(u).netloc` for ordinary URL strings: after the scheme
is split off, a netloc is present exactly when the remainder starts with
`//`, and extends to the next `/`, `?` or `#`. -/
def urlNetloc (u : String) : String :=
  match splitScheme u.data with
  | '/' :: '/' :: r => ⟨r.takeWhile (fun c => c != '/' && c != '?' && c != '#')⟩
  | _ => ""

/-- Embedding of `extract_domain` (app.py lines 100-108).  The argument is
`none` for a missing (`None`/`NaN`) website; in the program the record's
website is always a string, so calls from the prompt builders pass `some`.
The `try`/`except` of the source is not modelled: on a string argument
`urlparse` does not raise on this fragment. -/
def extract_domain (url : Option String) : String :=
  match url with
  | none => "Unknown"
  | some u =>
    let netloc := urlNetloc u
    if netloc == "" then u else strReplace netloc "www." ""

/-! ## The stage-1 research prompt (`create_comprehensive_prep_prompt`)

The Python f-string is embedded as the concatenation of its literal chunks and
interpolated values.  The chunk between the fit-score bracket `[` and `-100]`
is split around the digit `0` so that containment of the rendered figure `0`
can be exhibited inside a fixed literal. -/

/-- The flag sentence of the no-match data note. -/
def noneFlagText : String :=
  "No internal data available for this company. Please research and find accurate traffic and app download data during your analysis."

/-- Literal chunk of the no-match data note before the company name. -/
def dataNoteNoneA : String :=
  "\n**Note:** " ++ noneFlagText ++ "\n\n**Research Target:**\n- Company: "

/-- Literal chunk of the no-match data note before the estimated website. -/
def dataNoteNoneB : String := "\n- Estimated Website: "

/-- Trailing literal chunk of the no-match data note. -/
def dataNoteNoneC : String := " (please verify correct URL)\n"

/-- Leading literal chunk of the verified-data note. -/
def dataNoteDataA : String := "\n**Verified Internal Data ("

/-- Literal chunk of the verified-data note before the visits figure. -/
def dataNoteDataB : String := "):**\n- Monthly Website Visits: "

/-- Literal chunk of the verified-data note before the downloads figure. -/
def dataNoteDataC : String := "\n- App Downloads (Last 30 Days): "

/-- The `data_note` local of `create_comprehensive_prep_prompt` (app.py lines
116-133). -/
def data_note (cd : CompanyData) : String :=
  if cd.match_type == "none" then
    dataNoteNoneA ++ cd.company_name ++ dataNoteNoneB ++ cd.website ++ dataNoteNoneC
  else
    let match_note := if cd.match_type == "exact" then "✅ Exact match" else "📍 Partial match"
    let visits_display := if cd.monthly_visits > 0 then pyCommaFormat cd.monthly_visits else "Data not available"
    let downloads_display := if cd.app_downloads > 0 then pyCommaFormat cd.app_downloads else "Data not available"
    dataNoteDataA ++ match_note ++ dataNoteDataB ++ visits_display ++ dataNoteDataC ++ downloads_display ++ "\n"

/-- Research template up to the prep-sheet title name. -/
def rTemplA : String :=
  "You are an expert AI sales research analyst. Generate a comprehensive executive preparation sheet for OpenAI API sales prospects.\n\n## Research Requirements:\n1. **Company Intelligence**: Search for company background, size, headquarters, key markets\n2. **Technology Analysis**: Identify tech stack, cloud providers, AI/ML tools currently used\n3. **Funding & Growth**: Find latest funding rounds, valuation, growth metrics, investor information\n4. **AI Readiness**: Look for AI initiatives, job postings mentioning AI/ML, existing AI products\n5. **Digital Presence**: Research traffic data and app performance metrics\n6. **Competitive Position**: Research market position and key competitors\n\n## Output Format (use exactly this structure):\n# 📄 Prep Sheet – "

/-- Research template from after the title name to the digital-footprint
verification suffix. -/
def rTemplB : String :=
  "\n\n## 1. Fast Facts\n- **HQ / Key APAC markets:** [location and key markets]\n- **Employees / Engineers:** [headcount with engineering team size if available]\n- **Funding:** [latest round, date, total raised, key investors]\n- **Digital Footprint:** [monthly visits] monthly visits / [app downloads] app downloads"

/-- Research template from after the verification suffix up to the opening
bracket of the fit score (exclusive of the digit `0` that follows it). -/
def rTemplC1 : String :=
  "\n\n## 2. Tech Stack (BuiltWith)  \n| Layer | Detected Tools |\n|-------|----------------|\n| Cloud | [AWS/GCP/Azure and specific services] |\n| Backend | [programming languages, frameworks, databases] |\n| AI / Analytics | [OpenAI, TensorFlow, analytics tools, etc.] |\n\n## 3. AI-Readiness Signals\n- [Signal 1: existing AI initiatives, products, or features]\n- [Signal 2: AI-related job postings or team growth]\n- [Signal 3: technology partnerships or integrations]\n- [Signal 4: public statements about AI strategy]\n\n## 4. Potential OpenAI API Use Cases\n1. **[Use Case 1]**: [Specific application based on their business model]\n2. **[Use Case 2]**: [Customer-facing or internal efficiency opportunity]\n3. **[Use Case 3]**: [Innovation or competitive advantage opportunity]\n\n## 5. Discovery Questions\n- \"[Question about their current AI initiatives or challenges]\"\n- \"[Question about specific use case identified above]\"\n- \"[Question about technical implementation or integration needs]\"\n\n**Fit Score:** ["

/-- Research template from `-100]` after the fit-score `0` up to the
`**Company:**` field. -/
def rTemplC2 : String :=
  "-100] / 100 → *[High/Medium/Low] propensity*\n\n## Scoring Methodology:\n- +25 points: Series B+ funding OR $25M+ total raised\n- +20 points: 1M+ monthly active users (web + app)\n- +20 points: Existing AI/ML tools in tech stack\n- +15 points: 5+ AI-related job openings\n- +10 points: Recent AI product launches or announcements\n- +10 points: Enterprise cloud infrastructure (AWS/GCP/Azure)\n\n## Research Quality Standards:\n- Use BuiltWith, Crunchbase, SimilarWeb, company websites, and reputable tech press\n- Include inline citations with `` format\n- Prioritize recent data (last 12 months)\n- Be specific with numbers, dates, and sources\n- If data unavailable, state \"Data not found\" rather than speculate\n\n**Company:** "

/-- Research template chunk before the website field. -/
def rTemplD : String := "\n**Website:** "

/-- Research template chunk before the domain field. -/
def rTemplE : String := "\n**Domain:** "

/-- Trailing research template chunk after the data note. -/
def rTemplG : String :=
  "\n\nResearch this company thoroughly using web search and generate a detailed preparation sheet. Focus on their technology stack, AI readiness, funding status, and potential OpenAI API use cases."

/-- Embedding of `create_comprehensive_prep_prompt` (app.py lines 110-200). -/
def create_comprehensive_prep_prompt (cd : CompanyData) : String :=
  let company_domain := extract_domain (some cd.website)
  rTemplA ++ cd.company_name ++ rTemplB ++
    (if cd.match_type != "none" then " (verified from internal data)" else " (researched data)") ++
    rTemplC1 ++ "0" ++ rTemplC2 ++ cd.company_name ++ rTemplD ++ cd.website ++ rTemplE ++
    company_domain ++ "\n\n" ++ data_note cd ++ rTemplG

/-! ## The stage-2 enhancement prompt and the two stages -/

/-- Enhancement template up to the company name. -/
def eTemplA : String :=
  "You are an expert AI sales strategist and analyst. You have been provided with a comprehensive preparation sheet created by GPT-4o with web search. Your task is to enhance, refine, and improve this prep sheet using your advanced reasoning capabilities.\n\n**ENHANCEMENT OBJECTIVES:**\n1. **Analytical Depth**: Add deeper strategic insights and analysis\n2. **Data Synthesis**: Better synthesize the information for executive consumption\n3. **Strategic Recommendations**: Enhance the OpenAI API use cases with more sophisticated reasoning\n4. **Gap Filling**: Fill any missing information using your knowledge base\n5. **Executive Polish**: Make the content more executive-ready and actionable\n\n**ORIGINAL COMPANY DATA:**\n- Company: "

/-- Enhancement template chunk before the website. -/
def eTemplB : String := "\n- Website: "

/-- Enhancement template chunk before the match type. -/
def eTemplC : String := "\n- Data Match Type: "

/-- Enhancement template chunk before the visits figure. -/
def eTemplD : String := "\n- Monthly Website Visits: "

/-- Enhancement template chunk before the downloads figure. -/
def eTemplE : String := "\n- App Downloads (Last 30 Days): "

/-- Enhancement template chunk before the embedded stage-1 prep sheet. -/
def eTemplF : String := "\n\n**GPT-4O PREP SHEET TO ENHANCE:**\n"

/-- Trailing enhancement template chunk after the embedded prep sheet. -/
def eTemplG : String :=
  "\n\n**ENHANCEMENT INSTRUCTIONS:**\n1. **Keep the same format structure** - don\x27t change the overall layout\n2. **Improve the analysis quality** - add deeper insights where possible\n3. **Enhance strategic recommendations** - make OpenAI API use cases more compelling\n4. **Fill knowledge gaps** - if GPT-4o missed something you know, add it\n5. **Improve scoring rationale** - provide more detailed fit score reasoning\n6. **Add executive insights** - include strategic implications and business impact\n7. **Enhance discovery questions** - make them more targeted and valuable\n8. **Preserve source links** - keep all the web search citations from GPT-4o\n\n**SPECIFIC IMPROVEMENTS TO MAKE:**\n- **Strategic Context**: Add broader market context and competitive implications\n- **Technical Assessment**: Deeper analysis of their technical readiness for AI integration\n- **Business Impact**: More specific ROI and business value propositions\n- **Implementation Roadmap**: Suggestions for how they might approach OpenAI API adoption\n- **Risk Assessment**: Potential challenges or considerations for their AI journey\n- **Executive Summary**: Add a compelling executive summary at the end\n\n**OUTPUT FORMAT:**\nEnhance the existing prep sheet while maintaining the same structure. Add an enhanced executive summary section at the end:\n\n[Enhanced version of the original prep sheet with your improvements]\n\n## 8. Executive Summary & Strategic Implications\n**Strategic Context:** [Market positioning and competitive landscape insights]\n**Technical Readiness:** [Assessment of their ability to implement OpenAI API]\n**Business Impact Potential:** [Quantified value propositions where possible]\n**Recommended Implementation Approach:** [Suggested roadmap for OpenAI API adoption]\n**Key Success Factors:** [Critical elements for successful implementation]\n**Potential Challenges:** [Risks or obstacles to consider]\n\n**Bottom Line:** [One compelling sentence on why this is a high/medium/low priority prospect]\n\n**QUALITY STANDARDS:**\n- Maintain all factual accuracy from the original\n- Preserve web search citations and source links\n- Add value through deeper analysis, not just rewording\n- Focus on actionable insights for sales conversations\n- Use your reasoning capabilities to provide strategic depth\n- Keep the executive tone professional and compelling"

/-- The `enhancement_prompt` local of `stage2_o1_enhancement` (app.py lines
248-306), embedding the stage-1 prep sheet verbatim. -/
def enhancement_prompt (cd : CompanyData) (gpt4o_prep_sheet : String) : String :=
  eTemplA ++ cd.company_name ++ eTemplB ++ cd.website ++ eTemplC ++ cd.match_type ++
    eTemplD ++ pyCommaFormat cd.monthly_visits ++ eTemplE ++ pyCommaFormat cd.app_downloads ++
    eTemplF ++ gpt4o_prep_sheet ++ eTemplG

/-- Embedding of `stage1_gpt4o_prep_sheet` (app.py lines 202-240).  The
external search-augmented service is the parameter `svc`, mapping the
instructions prompt and the user input text to either the extracted report
text or a raised error message (the walk over the response envelope that
extracts the first textual payload is abstracted as the service's `ok`
value; no claim concerns that fallback chain).  On an exception the function
returns the literal failure string of line 240. -/
def stage1_gpt4o_prep_sheet (svc : String → String → Except String String)
    (cd : CompanyData) : String :=
  let prep_prompt := create_comprehensive_prep_prompt cd
  let input_text := "Conduct comprehensive research on " ++ cd.company_name ++
    " and generate a detailed preparation sheet using web search."
  match svc prep_prompt input_text with
  | Except.ok text => text
  | Except.error e => "GPT-4o prep sheet generation failed: " ++ e

/-- Embedding of `stage2_o1_enhancement` (app.py lines 242-331).  The
reasoning service maps the enhancement prompt to the first completion's text
or a raised error; on an exception the function returns the fallback of line
331, which annotates the error and appends the original stage-1 sheet. -/
def stage2_o1_enhancement (svc : String → Except String String)
    (cd : CompanyData) (gpt4o_prep_sheet : String) : String :=
  match svc (enhancement_prompt cd gpt4o_prep_sheet) with
  | Except.ok text => text
  | Except.error e =>
    "o1-preview enhancement failed: " ++ e ++ "\n\nOriginal GPT-4o prep sheet:\n" ++ gpt4o_prep_sheet

/-- Result of one orchestrated run: the returned document and how many times
the enhancement stage was invoked (the call-count the spec asks to assert). -/
structure PipelineOutcome where
  result : String
  stage2Calls : Nat
deriving DecidableEq, Repr

/-- Embedding of `generate_enhanced_two_stage_prep_sheet` (app.py lines
333-357).  Progress placeholders and the `time.sleep` between stages are UI
glue with no effect on the returned value.  The outer `try`/`except` is dead
in the model: both stage functions return strings and do not raise. -/
def generate_enhanced_two_stage_prep_sheet (svc1 : String → String → Except String String)
    (svc2 : String → Except String String) (cd : CompanyData) : PipelineOutcome :=
  let gpt4o_prep_sheet := stage1_gpt4o_prep_sheet svc1 cd
  if pyStartsWith gpt4o_prep_sheet "GPT-4o prep sheet generation failed" then
    ⟨gpt4o_prep_sheet, 0⟩
  else
    ⟨stage2_o1_enhancement svc2 cd gpt4o_prep_sheet, 1⟩

/-! ## Claim-side notions

These definitions render the spec's vocabulary (substring containment,
leading-prefix stripping, conversion success) so that the claims can be
stated against the embedded program and compared with it. -/

/-- The full Python regex metacharacter set; an input whose lowercase form
avoids all of these is interpreted by `re` as a plain literal string. -/
def metaChars : List Char := '.' :: '(' :: ')' :: otherMeta

/-- The string contains no regex metacharacter. -/
def noMetaStr (s : String) : Bool := s.data.all (fun c => !(metaChars.contains c))

/-- Every row of the dataset converts both numeric cells without raising. -/
def rowsConvOk (df : List DataRow) : Bool :=
  df.all (fun r => (safe_convert_to_int r.monthlyVisits 0).toOption.isSome &&
    (safe_convert_to_int r.appDownloads 0).toOption.isSome)

/-- The integer a cell normalizes to (0 when the conversion raises; only used
under hypotheses that rule the raising case out). -/
def convVal (c : Cell) : Int :=
  match safe_convert_to_int c 0 with
  | Except.ok n => n
  | Except.error _ => 0

/-- A cell never converts to a negative value (raising cells vacuously). -/
def convNonneg (c : Cell) : Bool :=
  match safe_convert_to_int c 0 with
  | Except.ok n => decide (0 ≤ n)
  | Except.error _ => true

/-- Every numeric cell of the dataset satisfies `convNonneg`. -/
def rowsConvNonneg (df : List DataRow) : Bool :=
  df.all (fun r => convNonneg r.monthlyVisits && convNonneg r.appDownloads)

/-- Claim-side reading of the spec's domain rule: strip `www.` ONLY when it is
a leading prefix of the host, leaving the rest of the host unchanged. -/
def stripLeadingWww (h : String) : String :=
  if startsWithL "www.".data h.data then ⟨h.data.drop 4⟩ else h

/-- `pat` occurs somewhere strictly after the first position of `l`. -/
def occursInside (pat : List Char) (l : List Char) : Bool :=
  match l with
  | [] => false
  | _ :: r => containsL pat r

/-! ## Helper lemmas -/

theorem strData_append (s t : String) : (s ++ t).data = s.data ++ t.data := by
  cases s; cases t; rfl

theorem strMk_data (s : String) : (⟨s.data⟩ : String) = s := by
  cases s; rfl

theorem SContains.refl (m : String) : SContains m m :=
  ⟨[], [], by simp⟩

theorem SContains.appl {t m : String} (u : String) (h : SContains t m) : SContains (u ++ t) m := by
  obtain ⟨p, q, hp⟩ := h
  exact ⟨u.data ++ p, q, by rw [strData_append, ← hp]; simp [List.append_assoc]⟩

theorem SContains.appr {t m : String} (u : String) (h : SContains t m) : SContains (t ++ u) m := by
  obtain ⟨p, q, hp⟩ := h
  exact ⟨p, q ++ u.data, by rw [strData_append, ← hp]; simp [List.append_assoc]⟩

theorem startsWithL_self_append : ∀ p t : List Char, startsWithL p (p ++ t) = true := by
  intro p
  induction p with
  | nil => intro t; rfl
  | cons c cs ih => intro t; simp [startsWithL, ih]

theorem startsWithL_ex {p l : List Char} (h : startsWithL p l = true) : ∃ t, l = p ++ t := by
  induction p generalizing l with
  | nil => exact ⟨l, rfl⟩
  | cons c cs ih =>
    cases l with
    | nil => simp [startsWithL] at h
    | cons d ds =>
      simp only [startsWithL, Bool.and_eq_true, beq_iff_eq] at h
      obtain ⟨t, ht⟩ := ih h.2
      exact ⟨t, by rw [h.1, ht]; rfl⟩

theorem containsL_tail {pat c r} (h : containsL pat (c :: r) = false) : containsL pat r = false := by
  simp only [containsL, Bool.or_eq_false_iff] at h
  exact h.2

theorem containsL_drop {pat : List Char} : ∀ (k : Nat) (l : List Char),
    containsL pat l = false → containsL pat (l.drop k) = false := by
  intro k
  induction k with
  | zero => intro l h; exact h
  | succ k ih =>
    intro l h
    cases l with
    | nil => exact h
    | cons c r => exact ih r (containsL_tail h)

theorem replaceFuel_no_occur {pat repl : List Char} :
    ∀ (f : Nat) (l : List Char), containsL pat l = false → replaceFuel pat repl f l = l := by
  intro f
  induction f with
  | zero => intro l _; rfl
  | succ f ih =>
    intro l h
    cases l with
    | nil => rfl
    | cons c cs =>
      simp only [containsL, Bool.or_eq_false_iff] at h
      simp [replaceFuel, h.1, ih cs h.2]

theorem head?_filter_eq_find? {α : Type} (p : α → Bool) :
    ∀ l : List α, (l.filter p).head? = l.find? p := by
  intro l
  induction l with
  | nil => rfl
  | cons a l ih =>
    by_cases h : p a = true
    · simp [List.filter_cons, List.find?_cons, h]
    · simp only [Bool.not_eq_true] at h
      simp [List.filter_cons, List.find?_cons, h, ih]

theorem find?_congrP {α : Type} {p q : α → Bool} (hpq : ∀ x, p x = q x) :
    ∀ l : List α, l.find? p = l.find? q := by
  intro l
  induction l with
  | nil => rfl
  | cons a l ih =>
    by_cases h : p a = true
    · simp [List.find?_cons, h, hpq a ▸ h]
    · simp only [Bool.not_eq_true] at h
      have h' : q a = false := hpq a ▸ h
      simp [List.find?_cons, h, h', ih]

theorem mem_of_head?_some {α : Type} {l : List α} {a : α} (h : l.head? = some a) : a ∈ l := by
  cases l with
  | nil => cases h
  | cons b t =>
    simp only [List.head?_cons, Option.some.injEq] at h
    exact h ▸ List.mem_cons_self b t

theorem compileAux_noMeta : ∀ l : List Char,
    l.all (fun c => !(metaChars.contains c)) = true →
    compileAux l 0 = Except.ok (l.map RAtom.litA) := by
  intro l
  induction l with
  | nil => intro _; rfl
  | cons c cs ih =>
    intro h
    simp only [List.all_cons, Bool.and_eq_true] at h
    have hc := h.1
    simp only [metaChars, otherMeta, List.contains_cons, Bool.not_eq_true',
      Bool.or_eq_false_iff, beq_eq_false_iff_ne, ne_eq] at hc
    obtain ⟨h1, h2, h3, h4, h5, h6, h7, h8, h9, h10, h11, h12, h13, h14, -⟩ := hc
    simp [compileAux, otherMeta, List.contains_cons, beq_iff_eq,
      h1, h2, h3, h4, h5, h6, h7, h8, h9, h10, h11, h12, h13, h14, ih h.2,
      Except.map]

theorem matchHere_lit : ∀ (m t : List Char),
    matchHere (m.map RAtom.litA) t = startsWithL m t := by
  intro m
  induction m with
  | nil => intro t; cases t <;> rfl
  | cons c cs ih =>
    intro t
    cases t with
    | nil => rfl
    | cons d ds => simp [matchHere, startsWithL, ih]

theorem regexSearch_lit : ∀ (t m : List Char),
    regexSearch (m.map RAtom.litA) t = containsL m t := by
  intro t
  induction t with
  | nil => intro m; simp [regexSearch, containsL, matchHere_lit]
  | cons c cs ih =>
    intro m
    simp [regexSearch, containsL, matchHere_lit, ih]

/-! ## Claim theorems -/

/-- C1: for every pipeline run, if the Research Stage raises (its service
call fails with any error `e`), the orchestrator short-circuits: it returns
the stage-1 failure text as the pipeline's overall result and the Enhancement
Stage is invoked zero times. -/
theorem claim_c1_stage1_failure_short_circuits
    (cd : CompanyData) (svc2 : String → Except String String) (e : String) :
    generate_enhanced_two_stage_prep_sheet (fun _ _ => Except.error e) svc2 cd =
      ⟨"GPT-4o prep sheet generation failed: " ++ e, 0⟩ := by
  have hlit : ("GPT-4o prep sheet generation failed: ").data =
      ("GPT-4o prep sheet generation failed").data ++ (": ").data := by decide
  have hsw : pyStartsWith ("GPT-4o prep sheet generation failed: " ++ e)
      "GPT-4o prep sheet generation failed" = true := by
    show startsWithL _ _ = true
    rw [strData_append, hlit, List.append_assoc]
    exact startsWithL_self_append _ _
  simp [generate_enhanced_two_stage_prep_sheet, stage1_gpt4o_prep_sheet, hsw]

/-- C2: for every pipeline run in which the Research Stage succeeds (its
report does not begin with the stage-1 failure marker, so the orchestrator
proceeds) and the Enhancement Stage raises, the pipeline still terminates
with a usable result: the Enhancement Stage was invoked, and the returned
string contains the full original stage-1 research text as a contiguous
substring together with the enhancement error detail. -/
theorem claim_c2_enhancement_failure_preserves_research
    (cd : CompanyData) (report err : String)
    (h : pyStartsWith report "GPT-4o prep sheet generation failed" = false) :
    (generate_enhanced_two_stage_prep_sheet (fun _ _ => Except.ok report)
        (fun _ => Except.error err) cd).stage2Calls = 1 ∧
    SContains (generate_enhanced_two_stage_prep_sheet (fun _ _ => Except.ok report)
        (fun _ => Except.error err) cd).result report ∧
    SContains (generate_enhanced_two_stage_prep_sheet (fun _ _ => Except.ok report)
        (fun _ => Except.error err) cd).result err := by
  have hred : generate_enhanced_two_stage_prep_sheet (fun _ _ => Except.ok report)
      (fun _ => Except.error err) cd =
      ⟨"o1-preview enhancement failed: " ++ err ++ "\n\nOriginal GPT-4o prep sheet:\n" ++ report, 1⟩ := by
    simp [generate_enhanced_two_stage_prep_sheet, stage1_gpt4o_prep_sheet,
      stage2_o1_enhancement, h]
  rw [hred]
  refine ⟨rfl, ?_, ?_⟩
  · exact (SContains.refl report).appl _
  · exact (((SContains.refl err).appl _).appr "\n\nOriginal GPT-4o prep sheet:\n").appr report

/-- Witness for C2 at a concrete run: research succeeds with a small report,
enhancement fails with a rate-limit error; the stage was invoked and the
result contains both the report and the error detail. -/
theorem claim_c2_witness :
    (generate_enhanced_two_stage_prep_sheet (fun _ _ => Except.ok "# 📄 Prep Sheet – Canva")
        (fun _ => Except.error "rate limited")
        ⟨"Canva", "https://canva.com", 135000000, 500000, "exact"⟩).stage2Calls = 1 ∧
    SContains (generate_enhanced_two_stage_prep_sheet (fun _ _ => Except.ok "# 📄 Prep Sheet – Canva")
        (fun _ => Except.error "rate limited")
        ⟨"Canva", "https://canva.com", 135000000, 500000, "exact"⟩).result "# 📄 Prep Sheet – Canva" ∧
    SContains (generate_enhanced_two_stage_prep_sheet (fun _ _ => Except.ok "# 📄 Prep Sheet – Canva")
        (fun _ => Except.error "rate limited")
        ⟨"Canva", "https://canva.com", 135000000, 500000, "exact"⟩).result "rate limited" :=
  claim_c2_enhancement_failure_preserves_research _ _ _ (by decide)

/-- C9: for every company record and every research-stage report string, the
stage-2 enhancement prompt contains the full research-stage text as a
contiguous substring. -/
theorem claim_c9_enhancement_prompt_embeds_report (cd : CompanyData) (report : String) :
    SContains (enhancement_prompt cd report) report := by
  simp only [enhancement_prompt]
  exact ((SContains.refl report).appl _).appr eTemplG

/-- C10 (implicit): the orchestrator decides stage-1 failure solely by the
literal failure marker prefix, so a SUCCESSFUL research call whose report
happens to begin with that marker is treated as a failed run: the Enhancement
Stage is never invoked and the report is returned as the whole pipeline
result. -/
theorem claim_c10_failure_marker_prefix_decides
    (cd : CompanyData) (svc2 : String → Except String String) (report : String)
    (h : pyStartsWith report "GPT-4o prep sheet generation failed" = true) :
    generate_enhanced_two_stage_prep_sheet (fun _ _ => Except.ok report) svc2 cd =
      ⟨report, 0⟩ := by
  simp [generate_enhanced_two_stage_prep_sheet, stage1_gpt4o_prep_sheet, h]

/-- Witness for C10: a successful research report that merely opens with the
marker words is swallowed whole and stage 2 is skipped. -/
theorem claim_c10_witness :
    generate_enhanced_two_stage_prep_sheet
      (fun _ _ => Except.ok "GPT-4o prep sheet generation failed to surface risks. # 📄 Prep Sheet – Acme")
      (fun _ => Except.ok "ENHANCED")
      ⟨"Acme", "https://acme.com", 1000, 500, "exact"⟩ =
    ⟨"GPT-4o prep sheet generation failed to surface risks. # 📄 Prep Sheet – Acme", 0⟩ :=
  claim_c10_failure_marker_prefix_decides _ _ _ (by decide)

/-- C5: numeric normalization: `"1,234,000"` maps to `1234000`; `None` and
`NaN` map to 0; a string that is empty or spells `nan` (case-insensitively,
after comma removal and stripping) maps to 0; `"42.9"` maps to 42 (parsed as
a float then truncated); and every string whose float parse fails (and which
is not an infinity spelling, the one uncaught case) yields 0 rather than a
propagated error. -/
theorem claim_c5_numeric_normalization :
    safe_convert_to_int (Cell.strV "1,234,000") 0 = Except.ok 1234000 ∧
    safe_convert_to_int Cell.nullV 0 = Except.ok 0 ∧
    safe_convert_to_int Cell.nanV 0 = Except.ok 0 ∧
    (∀ s : String, (pyLower (pyStrip (strReplace s "," "")) = "nan" ∨
        pyStrip (strReplace s "," "") = "") →
      safe_convert_to_int (Cell.strV s) 0 = Except.ok 0) ∧
    safe_convert_to_int (Cell.strV "42.9") 0 = Except.ok 42 ∧
    (∀ s : String,
      pyStrip (strReplace s "," "") ≠ "" →
      pyLower (pyStrip (strReplace s "," "")) ≠ "nan" →
      isInfStr (pyStrip (strReplace s "," "")).data = false →
      pyParseNumber (pyStrip (strReplace s "," "")).data = none →
      safe_convert_to_int (Cell.strV s) 0 = Except.ok 0) := by
  refine ⟨rfl, rfl, rfl, ?_, rfl, ?_⟩
  · intro s h
    rcases h with h | h
    · simp [safe_convert_to_int, h]
    · simp [safe_convert_to_int, h]
  · intro s h1 h2 h3 h4
    simp [safe_convert_to_int, h1, h2, h3, h4]

/-- Witness for C5's universal clause at the unparsable string `"three"`. -/
theorem claim_c5_witness :
    safe_convert_to_int (Cell.strV "three") 0 = Except.ok 0 :=
  claim_c5_numeric_normalization.2.2.2.2.2 "three" (by decide) (by decide) (by decide) (by decide)

/-- C4 evaluated at the failing input: with a dataset holding `"Canva"` and
the user input `"("`, the exact tier misses, the partial tier compiles the
raw input as a regular expression, and `re` raises — `resolve` does not
return a record. -/
theorem claim_c4_failing_input_raises :
    search_company_data
      [⟨"Canva", some "https://canva.com", Cell.strV "135,000,000", Cell.strV "500,000"⟩] "(" =
      Except.error "missing ), unterminated subpattern" := rfl

/-- Counterexample to C6 as stated: a dataset cell holding the string `"-5"`
is passed through by the normalization, so `resolve` returns a record with a
negative `monthlyVisits`. -/
theorem claim_c6_counterexample :
    search_company_data [⟨"Acme", some "https://acme.com", Cell.strV "-5", Cell.strV "7"⟩] "acme" =
      Except.ok ⟨"Acme", "https://acme.com", -5, 7, "exact"⟩ ∧
    ¬(0 ≤ (-5 : Int)) :=
  ⟨rfl, by decide⟩

/-- C6 amended: whenever no numeric cell of the dataset converts to a
negative value, every record `resolve` returns carries nonnegative
`monthlyVisits` and `appDownloads` (the no-match tier always yields 0). -/
theorem claim_c6_fields_nonneg
    (df : List DataRow) (input : String) (rec : CompanyData)
    (h2 : rowsConvNonneg df = true)
    (h3 : search_company_data df input = Except.ok rec) :
    0 ≤ rec.monthly_visits ∧ 0 ≤ rec.app_downloads := by
  rw [rowsConvNonneg, List.all_eq_true] at h2
  have hcell : ∀ row ∈ df, ∀ c ∈ [row.monthlyVisits, row.appDownloads],
      ∀ v : Int, safe_convert_to_int c 0 = Except.ok v → 0 ≤ v := by
    intro row hrow c hc v hv
    have hnn := h2 row hrow
    simp only [Bool.and_eq_true] at hnn
    have hcn : convNonneg c = true := by
      simp only [List.mem_cons, List.mem_singleton, List.not_mem_nil, or_false] at hc
      rcases hc with hc | hc
      · exact hc ▸ hnn.1
      · exact hc ▸ hnn.2
    rw [convNonneg, hv] at hcn
    exact of_decide_eq_true hcn
  simp only [search_company_data] at h3
  split at h3
  next row heq =>
    have hrow : row ∈ df := List.mem_of_mem_filter (mem_of_head?_some heq)
    split at h3
    next e heqV => exact absurd h3 (by simp)
    next v heqV =>
      split at h3
      next e heqD => exact absurd h3 (by simp)
      next d heqD =>
        injection h3 with h3'
        subst h3'
        exact ⟨hcell row hrow _ (by simp) v heqV, hcell row hrow _ (by simp) d heqD⟩
  next heq =>
    split at h3
    next e heqC => exact absurd h3 (by simp)
    next pat heqC =>
      split at h3
      next row heqP =>
        have hrow : row ∈ df := List.mem_of_mem_filter (mem_of_head?_some heqP)
        split at h3
        next e heqV => exact absurd h3 (by simp)
        next v heqV =>
          split at h3
          next e heqD => exact absurd h3 (by simp)
          next d heqD =>
            injection h3 with h3'
            subst h3'
            exact ⟨hcell row hrow _ (by simp) v heqV, hcell row hrow _ (by simp) d heqD⟩
      next heqP =>
        injection h3 with h3'
        subst h3'
        exact ⟨le_refl 0, le_refl 0⟩

/-- Witness for C6 amended at the Canva dataset and input. -/
theorem claim_c6_witness :
    0 ≤ (CompanyData.mk "Canva" "https://canva.com" 135000000 500000 "exact").monthly_visits ∧
    0 ≤ (CompanyData.mk "Canva" "https://canva.com" 135000000 500000 "exact").app_downloads :=
  claim_c6_fields_nonneg
    [⟨"Canva", some "https://canva.com", Cell.strV "135,000,000", Cell.strV "500,000"⟩]
    "canva" ⟨"Canva", "https://canva.com", 135000000, 500000, "exact"⟩ (by decide) rfl

theorem replaceFuel_leading {pat repl : List Char} (t : List Char) (hpat : pat ≠ [])
    (hcon : containsL pat t = false) (f : Nat) :
    replaceFuel pat repl (f + 1) (pat ++ t) = repl ++ t := by
  cases pat with
  | nil => exact absurd rfl hpat
  | cons p ps =>
    have hsw : startsWithL (p :: ps) (p :: (ps ++ t)) = true := by
      rw [← List.cons_append]
      exact startsWithL_self_append _ _
    have hdrop : (p :: (ps ++ t)).drop (p :: ps).length = t := by
      rw [← List.cons_append]
      exact List.drop_left _ _
    show replaceFuel _ _ (f + 1) (p :: (ps ++ t)) = _
    simp only [replaceFuel, hsw, if_true, hdrop, replaceFuel_no_occur f t hcon]

/-- Counterexample to C7 as stated: `str.replace` removes every occurrence of
`www.`, not only a leading prefix, so a host with an interior `www.` label is
mangled instead of returned unchanged. -/
theorem claim_c7_counterexample :
    extract_domain (some "https://en.www.example.com/path") = "en.example.com" ∧
    stripLeadingWww (urlNetloc "https://en.www.example.com/path") = "en.www.example.com" ∧
    ("en.example.com" : String) ≠ "en.www.example.com" :=
  ⟨rfl, rfl, by decide⟩

/-- C7 amended: a missing URL maps to `Unknown`; a value with no parseable
host is returned raw; a URL with a host maps to the host with EVERY
occurrence of `www.` removed, which agrees with stripping a leading `www.`
prefix whenever `www.` does not occur beyond the first position of the host
(in particular on hosts like `www.canva.com`). -/
theorem claim_c7_domain_extraction (u : String) :
    extract_domain none = "Unknown" ∧
    (urlNetloc u = "" → extract_domain (some u) = u) ∧
    (urlNetloc u ≠ "" → extract_domain (some u) = strReplace (urlNetloc u) "www." "") ∧
    (urlNetloc u ≠ "" → occursInside ("www." : String).data (urlNetloc u).data = false →
      extract_domain (some u) = stripLeadingWww (urlNetloc u)) := by
  refine ⟨rfl, ?_, ?_, ?_⟩
  · intro h
    simp [extract_domain, h]
  · intro h
    simp [extract_domain, h]
  · intro h hocc
    have hred : extract_domain (some u) = strReplace (urlNetloc u) "www." "" := by
      simp [extract_domain, h]
    rw [hred]
    rw [strReplace, stripLeadingWww]
    cases hsw : startsWithL ("www." : String).data (urlNetloc u).data with
    | true =>
      rw [if_pos rfl]
      obtain ⟨t, ht⟩ := startsWithL_ex hsw
      have hcon : containsL ("www." : String).data t = false := by
        have h1 : containsL ("www." : String).data ((urlNetloc u).data.drop 1) = false := by
          rw [ht]
          have : (("www." : String).data ++ t).drop 1 = 'w' :: 'w' :: '.' :: t := rfl
          rw [this]
          rw [ht] at hocc
          exact hocc
        have h4 := containsL_drop 3 _ h1
        rw [List.drop_drop] at h4
        have ht4 : (urlNetloc u).data.drop 4 = t := by
          rw [ht, show (4 : Nat) = ("www." : String).data.length from rfl]
          exact List.drop_left _ _
        rwa [show (3 + 1 : Nat) = 4 from rfl, ht4] at h4
      have hlen : (("www." : String).data ++ t).length = t.length + 3 + 1 := by
        rw [List.length_append]
        have h4 : ("www." : String).data.length = 4 := rfl
        rw [h4]
        omega
      have ht4 : (("www." : String).data ++ t).drop 4 = t := by
        rw [show (4 : Nat) = ("www." : String).data.length from rfl]
        exact List.drop_left _ _
      rw [ht, hlen, replaceFuel_leading t (by decide) hcon (t.length + 3)]
      have hnil : ("" : String).data = [] := rfl
      rw [hnil, List.nil_append, ht4]
    | false =>
      rw [if_neg (by simp [hsw])]
      have hcon : containsL ("www." : String).data (urlNetloc u).data = false := by
        cases hl : (urlNetloc u).data with
        | nil => rfl
        | cons c r =>
          rw [hl] at hsw hocc
          simp only [containsL, hsw, Bool.false_or]
          exact hocc
      rw [replaceFuel_no_occur _ _ hcon, strMk_data]

/-- Witness for C7 amended at the spec's own example URL. -/
theorem claim_c7_witness :
    extract_domain (some "https://www.canva.com/pricing") = "canva.com" :=
  ((claim_c7_domain_extraction "https://www.canva.com/pricing").2.2.2
    (by decide) (by decide)).trans (by decide)

/-- Counterexample to C3 as stated: the partial tier is NOT substring
containment.  With the single dataset row `abc` and the input `a.c`, the
input is not a substring of any name (tier 2 misses) and tier 1 misses, so
the claim requires the synthesized no-match record; but the code interprets
the input as a regular expression, `a.c` matches `abc`, and the row is
returned as a Partial match. -/
theorem claim_c3_counterexample :
    (([⟨"abc", some "https://abc.com", Cell.strV "1", Cell.strV "2"⟩] : List DataRow).find?
        (fun r => pyLower r.orgName == pyLower "a.c") = none) ∧
    (([⟨"abc", some "https://abc.com", Cell.strV "1", Cell.strV "2"⟩] : List DataRow).find?
        (fun r => containsL (pyLower "a.c").data (pyLower r.orgName).data) = none) ∧
    search_company_data [⟨"abc", some "https://abc.com", Cell.strV "1", Cell.strV "2"⟩] "a.c" =
      Except.ok ⟨"abc", "https://abc.com", 1, 2, "partial"⟩ :=
  ⟨rfl, rfl, rfl⟩

/-- C3 amended: restricted to inputs whose lowercase form has no regex
metacharacter (where regex search and substring containment coincide) and to
datasets whose numeric cells convert without raising, the three-tier policy
holds exactly as claimed: first case-insensitively-equal row as Exact, else
first row whose lowercased name contains the lowercased input as Partial,
else the synthesized record with the raw input, slug website and zero
fields. -/
theorem claim_c3_three_tier_policy
    (df : List DataRow) (input : String)
    (hm : noMetaStr (pyLower input) = true)
    (hc : rowsConvOk df = true) :
    (∀ row, df.find? (fun r => pyLower r.orgName == pyLower input) = some row →
      search_company_data df input =
        Except.ok ⟨row.orgName, websiteField row.website input,
          convVal row.monthlyVisits, convVal row.appDownloads, "exact"⟩) ∧
    (df.find? (fun r => pyLower r.orgName == pyLower input) = none →
      (∀ row, df.find? (fun r => containsL (pyLower input).data (pyLower r.orgName).data) = some row →
        search_company_data df input =
          Except.ok ⟨row.orgName, websiteField row.website input,
            convVal row.monthlyVisits, convVal row.appDownloads, "partial"⟩) ∧
      (df.find? (fun r => containsL (pyLower input).data (pyLower r.orgName).data) = none →
        search_company_data df input =
          Except.ok ⟨input, synthWebsite input, 0, 0, "none"⟩)) := by
  rw [rowsConvOk, List.all_eq_true] at hc
  have hconv : ∀ row ∈ df, ∃ v d : Int,
      safe_convert_to_int row.monthlyVisits 0 = Except.ok v ∧
      safe_convert_to_int row.appDownloads 0 = Except.ok d ∧
      convVal row.monthlyVisits = v ∧ convVal row.appDownloads = d := by
    intro row hrow
    have h := hc row hrow
    simp only [Bool.and_eq_true] at h
    cases hV : safe_convert_to_int row.monthlyVisits 0 with
    | error e => rw [hV] at h; simp [Except.toOption] at h
    | ok v =>
      cases hD : safe_convert_to_int row.appDownloads 0 with
      | error e => rw [hD] at h; simp [Except.toOption] at h
      | ok d =>
        exact ⟨v, d, rfl, rfl, by simp only [convVal, hV], by simp only [convVal, hD]⟩
  constructor
  · intro row hfind
    obtain ⟨v, d, hV, hD, hcv, hcd⟩ := hconv row (List.mem_of_find?_eq_some hfind)
    simp only [search_company_data, head?_filter_eq_find?, hfind, hV, hD, hcv, hcd]
  · intro hnone
    have hm' : (pyLower input).data.all (fun c => !(metaChars.contains c)) = true := by
      rwa [noMetaStr] at hm
    have hpatOk : compilePattern (pyLower input).data =
        Except.ok ((pyLower input).data.map RAtom.litA) :=
      compileAux_noMeta _ hm'
    have hsearchEq : ∀ r : DataRow,
        (fun r : DataRow => regexSearch ((pyLower input).data.map RAtom.litA) (pyLower r.orgName).data) r =
        (fun r : DataRow => containsL (pyLower input).data (pyLower r.orgName).data) r :=
      fun r => regexSearch_lit _ _
    constructor
    · intro row hfind
      obtain ⟨v, d, hV, hD, hcv, hcd⟩ := hconv row (List.mem_of_find?_eq_some hfind)
      have hfind' : df.find?
          (fun r => regexSearch ((pyLower input).data.map RAtom.litA) (pyLower r.orgName).data) = some row := by
        rw [find?_congrP hsearchEq df]
        exact hfind
      simp only [search_company_data, head?_filter_eq_find?, hnone, hpatOk, hfind', hV, hD, hcv, hcd]
    · intro hfindnone
      have hfind' : df.find?
          (fun r => regexSearch ((pyLower input).data.map RAtom.litA) (pyLower r.orgName).data) = none := by
        rw [find?_congrP hsearchEq df]
        exact hfindnone
      simp only [search_company_data, head?_filter_eq_find?, hnone, hpatOk, hfind']

/-- Witness for C3 amended at the dataset row of the spec's end-to-end
scenario: input `canva` resolves to the stored `Canva` row as an Exact match
with the normalized figures. -/
theorem claim_c3_witness :
    search_company_data
      [⟨"Canva", some "https://canva.com", Cell.strV "135,000,000", Cell.strV "500,000"⟩] "canva" =
      Except.ok ⟨"Canva", "https://canva.com", 135000000, 500000, "exact"⟩ :=
  ((claim_c3_three_tier_policy
      [⟨"Canva", some "https://canva.com", Cell.strV "135,000,000", Cell.strV "500,000"⟩]
      "canva" (by decide) (by decide)).1
    ⟨"Canva", some "https://canva.com", Cell.strV "135,000,000", Cell.strV "500,000"⟩ rfl).trans rfl

theorem pyCommaFormat_zero : pyCommaFormat 0 = "0" := rfl

/-- C8: for every record (with the data model's nonnegative numeric fields),
when the match type is not `none` the research prompt contains the record's
comma-formatted monthly-visit and app-download figures verbatim (a positive
figure through the verified-data block; the figure `0` occurs in the fixed
rubric text while the block itself shows `Data not available`); when the
match type is `none` the prompt instead carries the explicit flag that no
internal data is available and the figures must be researched. -/
theorem claim_c8_prompt_figures (cd : CompanyData)
    (h1 : 0 ≤ cd.monthly_visits) (h2 : 0 ≤ cd.app_downloads) :
    (cd.match_type ≠ "none" →
      SContains (create_comprehensive_prep_prompt cd) (pyCommaFormat cd.monthly_visits) ∧
      SContains (create_comprehensive_prep_prompt cd) (pyCommaFormat cd.app_downloads)) ∧
    (cd.match_type = "none" →
      SContains (create_comprehensive_prep_prompt cd) noneFlagText) := by
  constructor
  · intro hne
    have hb : (cd.match_type == "none") = false := by simp [hne]
    have hnb : ¬((cd.match_type == "none") = true) := by simp [hb]
    constructor
    · rcases lt_or_eq_of_le h1 with hpos | hzero
      · have hnote : data_note cd =
            dataNoteDataA ++ (if cd.match_type == "exact" then "✅ Exact match" else "📍 Partial match") ++
            dataNoteDataB ++ pyCommaFormat cd.monthly_visits ++ dataNoteDataC ++
            (if cd.app_downloads > 0 then pyCommaFormat cd.app_downloads else "Data not available") ++
            "\n" := by
          rw [data_note, if_neg hnb, if_pos hpos]
        simp only [create_comprehensive_prep_prompt, hnote]
        exact ((((((SContains.refl _).appl _).appr _).appr _).appr _).appl _).appr _
      · rw [← hzero, pyCommaFormat_zero]
        simp only [create_comprehensive_prep_prompt]
        exact ((((((((((SContains.refl _).appl _).appr _).appr _).appr _).appr _).appr
          _).appr _).appr _).appr _).appr _
    · rcases lt_or_eq_of_le h2 with hpos | hzero
      · have hnote : data_note cd =
            dataNoteDataA ++ (if cd.match_type == "exact" then "✅ Exact match" else "📍 Partial match") ++
            dataNoteDataB ++ (if cd.monthly_visits > 0 then pyCommaFormat cd.monthly_visits else "Data not available") ++
            dataNoteDataC ++ pyCommaFormat cd.app_downloads ++ "\n" := by
          rw [data_note, if_neg hnb, if_pos hpos]
        simp only [create_comprehensive_prep_prompt, hnote]
        exact ((((SContains.refl _).appl _).appr "\n").appl _).appr _
      · rw [← hzero, pyCommaFormat_zero]
        simp only [create_comprehensive_prep_prompt]
        exact ((((((((((SContains.refl _).appl _).appr _).appr _).appr _).appr _).appr
          _).appr _).appr _).appr _).appr _
  · intro h
    have hb : (cd.match_type == "none") = true := by simp [h]
    have hnote : data_note cd =
        dataNoteNoneA ++ cd.company_name ++ dataNoteNoneB ++ cd.website ++ dataNoteNoneC := by
      rw [data_note, if_pos hb]
    simp only [create_comprehensive_prep_prompt, hnote, dataNoteNoneA]
    exact ((((((((SContains.refl _).appl "\n**Note:** ").appr _).appr _).appr _).appr
      _).appr _).appl _).appr _

/-- Witness for C8 at a verified record (positive figures embedded) and at a
no-match record (unverified flag embedded). -/
theorem claim_c8_witness :
    SContains (create_comprehensive_prep_prompt
        ⟨"Canva", "https://canva.com", 135000000, 500000, "exact"⟩) (pyCommaFormat 135000000) ∧
    SContains (create_comprehensive_prep_prompt
        ⟨"Zed", "https://www.zed.com", 0, 0, "none"⟩) noneFlagText :=
  ⟨((claim_c8_prompt_figures ⟨"Canva", "https://canva.com", 135000000, 500000, "exact"⟩
      (by decide) (by decide)).1 (by decide)).1,
   (claim_c8_prompt_figures ⟨"Zed", "https://www.zed.com", 0, 0, "none"⟩
      (by decide) (by decide)).2 rfl⟩

end AppModel
